import Mathlib

/-!
Verification of the chat-bot core of this repository: the dispatcher and
event normalizer in `src/botty.py` and the connection/send machinery in
`src/bot.py`, shallowly embedded in Lean.

Conventions of the embedding:
* Python dictionary fields are `Option` values (`none` = key absent).
* A field value that may be present but wrongly typed is a `PyVal`
  (`pstr` for strings, `pother` for any non-string value).
* Python exceptions become `Except` results; the exception message
  strings are elided, only the exception kind is kept.
-/

namespace BottyBot

/-- A Python dictionary value as the accessors discriminate it:
either a string or some non-string value. -/
inductive PyVal where
  | pstr (s : String)
  | pother
deriving DecidableEq, Repr

/-- The raised-exception kinds the embedded code distinguishes. -/
inductive PyExc where
  /-- Python `ValueError`, raised by the `IncomingMessage` accessors. -/
  | valueError
deriving DecidableEq, Repr

/-- The nested `"message"` sub-record of a raw Slack event
(present on `message_changed` events). -/
structure SubMsg where
  user : Option PyVal
  channel : Option PyVal
  text : Option PyVal
  thread_ts : Option PyVal
deriving DecidableEq, Repr

/-- The nested `"item"` sub-record of a raw Slack event
(present on reaction events). -/
structure ItemRec where
  ts : Option PyVal
  channel : Option PyVal
deriving DecidableEq, Repr

/-- A raw event record pulled from the Slack RTM connection
(`message_dict` in the source), with the keys the embedded code reads.
`ok` and `reply_to` appear on send acknowledgments: `ok` records presence
and truthiness of the `"ok"` key, `reply_to` the integer `"reply_to"` key. -/
structure Msg where
  type : Option PyVal
  subtype : Option PyVal
  ts : Option PyVal
  text : Option PyVal
  user : Option PyVal
  channel : Option PyVal
  thread_ts : Option PyVal
  reaction : Option PyVal
  message : Option SubMsg
  item : Option ItemRec
  ok : Option Bool
  reply_to : Option Nat
deriving DecidableEq, Repr

/-- A raw event with every key absent. -/
def Msg.empty : Msg :=
  ⟨none, none, none, none, none, none, none, none, none, none, none, none⟩

/-- Python `message_dict.get("message", {})`. -/
def subOf (m : Msg) : SubMsg := m.message.getD ⟨none, none, none, none⟩

/-- Python `message_dict.get("item", {})`. -/
def itemOf (m : Msg) : ItemRec := m.item.getD ⟨none, none⟩

/-- `IncomingMessage` from `src/botty.py`: a validated accessor view over
one raw event record. -/
structure IncomingMessage where
  message_dict : Msg
  is_bot_message : Bool
deriving DecidableEq, Repr

namespace IncomingMessage

/-- `IncomingMessage.timestamp`: `"ts"` at top level, else `item.ts`;
`ValueError` when the result is not a string. -/
def timestamp (self : IncomingMessage) : Except PyExc String :=
  let reaction_timestamp := (itemOf self.message_dict).ts
  let timestamp := self.message_dict.ts <|> reaction_timestamp
  match timestamp with
  | some (.pstr s) => .ok s
  | _ => .error .valueError

/-- `IncomingMessage.text`: `"text"` at top level, else `message.text`;
`ValueError` when the result is not a string. -/
def text (self : IncomingMessage) : Except PyExc String :=
  let submessage_text := (subOf self.message_dict).text
  let text := self.message_dict.text <|> submessage_text
  match text with
  | some (.pstr s) => .ok s
  | _ => .error .valueError

/-- `IncomingMessage.user_id`: `"user"` at top level, else `message.user`;
`ValueError` when the result is not a string. -/
def user_id (self : IncomingMessage) : Except PyExc String :=
  let submessage_user := (subOf self.message_dict).user
  let user_id := self.message_dict.user <|> submessage_user
  match user_id with
  | some (.pstr s) => .ok s
  | _ => .error .valueError

/-- `IncomingMessage.channel_id`: `"channel"` at top level, else
`message.channel`, else `item.channel`; `ValueError` when the result is
not a string. -/
def channel_id (self : IncomingMessage) : Except PyExc String :=
  let reaction_channel := (itemOf self.message_dict).channel
  let submessage_channel := (subOf self.message_dict).channel <|> reaction_channel
  let channel_id := self.message_dict.channel <|> submessage_channel
  match channel_id with
  | some (.pstr s) => .ok s
  | _ => .error .valueError

/-- `IncomingMessage.thread_id`: `"thread_ts"` at top level, else
`message.thread_ts`; `none` (Python `None`) when absent, `ValueError`
only when present but not a string. -/
def thread_id (self : IncomingMessage) : Except PyExc (Option String) :=
  let submessage_thread := (subOf self.message_dict).thread_ts
  let thread_id := self.message_dict.thread_ts <|> submessage_thread
  match thread_id with
  | none => .ok none
  | some (.pstr s) => .ok (some s)
  | some _ => .error .valueError

/-- `IncomingMessage.reaction`: the `"reaction"` key; `ValueError` when
absent or not a string. -/
def reaction (self : IncomingMessage) : Except PyExc String :=
  match self.message_dict.reaction with
  | some (.pstr s) => .ok s
  | _ => .error .valueError

/-- `IncomingMessage.is_action_message`: the `"type"` key is not one of the
housekeeping event kinds (an absent or non-string type counts as an action). -/
def is_action_message (self : IncomingMessage) : Bool :=
  match self.message_dict.type with
  | some (.pstr s) =>
      decide (s ∉ (["ping", "pong", "presence_change", "user_typing", "reconnect_url"] : List String))
  | _ => true

end IncomingMessage

/-! ## Plugin dispatch (`Botty` in src/botty.py, `SlackBot.start` in src/bot.py) -/

/-- The outcome of calling a plugin's `on_message`: a truthiness value,
or a raised exception. -/
inductive HandlerOut where
  | ret (handled : Bool)
  | exc
deriving DecidableEq, Repr

/-- A registered plugin's `on_message` callback. -/
abbrev Handler := IncomingMessage → HandlerOut

/-- The outcome of one run of Botty's plugin dispatch loop. -/
inductive DispatchOutcome where
  | handledBy (i : Nat)
  | unhandled
  | raisedAt (i : Nat)
deriving DecidableEq, Repr

/-- The loop `for plugin in self.plugins: if plugin.on_message(message): break`
of `Botty.on_message`, starting at registration index `i`: returns the
indices of the plugins whose `on_message` was invoked, in invocation order,
together with the outcome. A raised exception propagates immediately. -/
def dispatchToPluginsFrom (message : IncomingMessage) (i : Nat) :
    List Handler → List Nat × DispatchOutcome
  | [] => ([], .unhandled)
  | p :: rest =>
    match p message with
    | .exc => ([i], .raisedAt i)
    | .ret true => ([i], .handledBy i)
    | .ret false =>
      let r := dispatchToPluginsFrom message (i + 1) rest
      (i :: r.1, r.2)

/-- The plugin dispatch loop over the full registration list. -/
def dispatchToPlugins (plugins : List Handler) (message : IncomingMessage) :
    List Nat × DispatchOutcome :=
  dispatchToPluginsFrom message 0 plugins

/-- The mutable fields of a `Botty` instance that `on_message` touches. -/
structure BottyState where
  last_message_timestamp : Option String
  last_message_thread_id : Option String
  last_message_channel_id : Option String
  recent_events : List IncomingMessage
deriving DecidableEq, Repr

/-- Append to a `deque(maxlen=n)`: when full, the leftmost element is
dropped to make room. -/
def dequeAppend (n : Nat) (l : List α) (x : α) : List α :=
  if l.length < n then l ++ [x] else l.tail ++ [x]

/-- An exception escaping `Botty.on_message`, as seen by the per-event
`try`/`except` in `SlackBot.start`: a `ValueError` from one of the
accessors in the tuple assignment, or an exception raised by plugin `i`. -/
inductive BotExc where
  | validationExc
  | handlerExc (i : Nat)
deriving DecidableEq, Repr

/-- `Botty.on_message` from src/botty.py: skip messages from bot users;
set the three last-seen fields by a single tuple assignment whose
right-hand side (`message.timestamp, message.thread_id,
message.channel_id`) is fully evaluated before any field is assigned;
record the event if it is an action; then run the plugin dispatch loop.
Returns the state after the call, the indices of the plugins invoked, and
the exception that escaped the call, if any. -/
def bottyOnMessage (isBot : String → Bool) (plugins : List Handler)
    (st : BottyState) (message_dict : Msg) :
    BottyState × List Nat × Option BotExc :=
  let user_id := message_dict.user <|> (subOf message_dict).user
  let userIsBot := match user_id with
    | some (.pstr s) => isBot s
    | _ => false
  if userIsBot then (st, [], none)
  else
    let message : IncomingMessage := ⟨message_dict, false⟩
    match message.timestamp, message.thread_id, message.channel_id with
    | .ok ts, .ok th, .ok ch =>
      let st1 := { st with
        last_message_timestamp := some ts,
        last_message_thread_id := th,
        last_message_channel_id := some ch }
      let st2 := if message.is_action_message
        then { st1 with recent_events := dequeAppend 2000 st1.recent_events message }
        else st1
      match dispatchToPlugins plugins message with
      | (tr, .raisedAt i) => (st2, tr, some (.handlerExc i))
      | (tr, _) => (st2, tr, none)
    | _, _, _ => (st, [], some .validationExc)

/-- What the per-event loop of `SlackBot.start` records for one event: the
plugins invoked, the exception that escaped `Botty.on_message` (if any),
and how many error-log records the `except Exception` branch emitted. -/
structure EventRecord where
  invoked : List Nat
  exc : Option BotExc
  errorLogs : Nat
deriving DecidableEq, Repr

/-- The per-event dispatch loop of `SlackBot.start`: each pulled event is
passed to `on_message` inside `try`/`except Exception`; an escaping
exception is logged (one error-log record) and the loop moves on to the
next event. -/
def processIncomingEvents (isBot : String → Bool) (plugins : List Handler)
    (st : BottyState) : List Msg → BottyState × List EventRecord
  | [] => (st, [])
  | m :: rest =>
    let r := bottyOnMessage isBot plugins st m
    let logs := match r.2.2 with
      | some _ => 1
      | none => 0
    let tail := processIncomingEvents isBot plugins r.1 rest
    (tail.1, ⟨r.2.1, r.2.2, logs⟩ :: tail.2)

/-- An ordinary dispatchable text-message event, used to exercise the
dispatch loop at concrete inputs. -/
def sampleDispatchableMsg : Msg :=
  { Msg.empty with
      type := some (.pstr "message")
      ts := some (.pstr "1")
      user := some (.pstr "UMe")
      channel := some (.pstr "C1") }

/-! ## The outbound send pipeline (`SlackBot.say`, src/bot.py)

Timing model for the rate limiter: instants are rationals (seconds),
`time.monotonic()` reads the current instant, `time.sleep(d)` completes
exactly `d` seconds later, and all other work is instantaneous. Under
this idealization the code's bookkeeping is embedded exactly. -/

/-- The `SlackBot` fields that `say` touches: the next outgoing message
(correlation) ID and the last-send timestamp used for rate limiting.
`__init__` sets `max_message_id = 1` and `last_say_time = 0`. -/
structure SendState where
  max_message_id : Nat
  last_say_time : ℚ
deriving DecidableEq, Repr

/-- The send fields as `SlackBot.__init__` leaves them. -/
def initSendState : SendState := ⟨1, 0⟩

/-- `SlackBot.say`: rate limit to one send per second by sleeping (never
by rejecting), then hand out the next message ID. Takes the state and the
instant the call starts; returns the message ID, the state after the
call, and the instant the call completes. The channel-validity assertion,
logging and the websocket write are elided: they touch neither field nor,
in this timing model, the clock. -/
def say (st : SendState) (current_time : ℚ) : Nat × SendState × ℚ :=
  let r :=
    if current_time - st.last_say_time < 1 then
      (st.last_say_time + 1,
        current_time + max 0 (1 - (current_time - st.last_say_time)))
    else
      (current_time, current_time)
  (st.max_message_id, ⟨st.max_message_id + 1, r.1⟩, r.2)

/-- `n` back-to-back `say` calls: the first starts at instant `t`, each
later call starts the moment the previous one completes. Returns the
state and the completion instant of the last call (`t` itself for `n = 0`). -/
def sayChain (st : SendState) (t : ℚ) : Nat → SendState × ℚ
  | 0 => (st, t)
  | n + 1 =>
    let r := say st t
    sayChain r.2.1 r.2.2 n

/-- The message IDs returned by one `say` call per listed start instant
(the instants may be arbitrary; the IDs do not depend on them). -/
def sayIdsAt (st : SendState) : List ℚ → List Nat
  | [] => []
  | t :: ts =>
    let r := say st t
    r.1 :: sayIdsAt r.2.1 ts

/-! ## Delivery correlation (`SlackBot.say_complete`, src/bot.py) -/

/-- The exceptions `say_complete` can raise: `TimeoutError` when no
acknowledgment arrives in time, `ValueError` on an explicit negative
acknowledgment, `AssertionError` on a malformed acknowledged timestamp. -/
inductive SayCompleteExc where
  | timeoutExc
  | deliveryExc
  | assertionExc
deriving DecidableEq, Repr

/-- The acknowledgment test of `say_complete`: the `"ok"` key is present
and `"reply_to"` equals the message ID of the send. -/
def isReplyTo (message_id : Nat) (e : Msg) : Bool :=
  e.ok.isSome && e.reply_to == some message_id

/-- The inner `for` loop of `say_complete` over one batch of newly pulled
events: the first acknowledgment for `message_id` decides the call — a
falsy `"ok"` raises `ValueError`, a truthy one yields the acknowledged
`"ts"` (which must be a string) — and every other event is skipped.
`none` is the loop's `else:` branch: no acknowledgment in this batch. -/
def scanBatch (message_id : Nat) : List Msg → Option (Except SayCompleteExc String)
  | [] => none
  | e :: rest =>
    if isReplyTo message_id e then
      some (match e.ok with
        | some false => .error .deliveryExc
        | _ =>
          match e.ts with
          | some (.pstr s) => .ok s
          | _ => .error .assertionExc)
    else scanBatch message_id rest

/-- The polling loop of `say_complete`: each list entry is the batch of
events pulled by one iteration, and the `timeout` budget is modeled as
the number of polling iterations it allows; when the budget is exhausted
with no acknowledgment found, `TimeoutError` is raised. -/
def sayCompleteLoop (message_id : Nat) :
    List (List Msg) → Except SayCompleteExc String
  | [] => .error .timeoutExc
  | batch :: rest =>
    match scanBatch message_id batch with
    | some r => r
    | none => sayCompleteLoop message_id rest

/-! ## Connection supervision (`SlackBot.start_loop` / `SlackBot.start`) -/

/-- The exceptions relevant to the supervision loop: the
`ConnectionError` that `start` raises when `rtm_connect()` fails, the
`AssertionError` that `assert authentication["ok"]` raises when
authentication fails, any other exception escaping the main loop, and
`KeyboardInterrupt`. -/
inductive LoopExc where
  | connectionExc
  | authAssertionExc
  | otherExc
  | keyboardInterrupt
deriving DecidableEq, Repr

/-- How far one call to `SlackBot.start` gets: it raises
`ConnectionError` when the RTM connect fails, raises `AssertionError`
when the `auth.test` response is not ok, and otherwise enters its main
loop. -/
inductive StartResult where
  | raised (e : LoopExc)
  | running
deriving DecidableEq, Repr

/-- The startup phase of `SlackBot.start`. -/
def startOutcome (connectOk authOk : Bool) : StartResult :=
  if !connectOk then .raised .connectionExc
  else if !authOk then .raised .authAssertionExc
  else .running

/-- `SlackBot.start_loop`, driven by the scripted sequence of exceptions
with which successive `start` calls terminate: `KeyboardInterrupt` breaks
out of the loop (shutdown); every other exception is logged and retried
after a fixed `time.sleep(5)` backoff. Returns the total seconds slept in
backoffs together with whether the loop terminated by interrupt (rather
than exhausting the scripted outcomes). -/
def startLoop : List LoopExc → Nat × Bool
  | [] => (0, false)
  | e :: rest =>
    match e with
    | .keyboardInterrupt => (0, true)
    | _ =>
      let r := startLoop rest
      (r.1 + 5, r.2)

/-! ## Identity directory (`SlackBot.get_user_name_by_id` /
`SlackBot.get_channel_name_by_id`, src/bot.py) -/

/-- A cached user directory entry held by the connected session
(`self.client.server.users`). -/
structure SlackUser where
  id : String
  name : String
deriving DecidableEq, Repr

/-- A cached channel directory entry held by the connected session
(`self.client.server.channels`). -/
structure SlackChannel where
  id : String
  name : String
deriving DecidableEq, Repr

/-- Instrumentation for directory queries: how many Slack API calls
(`self.client.api_call(...)`) have been issued. A method that queried the
directory would increment it; a method that only reads the local cache
returns it unchanged. -/
structure ApiState where
  queryCount : Nat
deriving DecidableEq, Repr

/-- `SlackBot.get_user_name_by_id`: scan the session's cached user list
for the first entry with the given ID and return its name, or `None`.
The body issues no `api_call`, so the query counter is unchanged. -/
def get_user_name_by_id (users : List SlackUser) (user_id : String)
    (api : ApiState) : Option String × ApiState :=
  ((users.find? (fun entry => entry.id == user_id)).map (fun entry => entry.name),
    api)

/-- `SlackBot.get_channel_name_by_id`: scan the session's cached channel
list for the first entry with the given ID and return its name, or
`None`. The body issues no `api_call`, so the query counter is
unchanged. -/
def get_channel_name_by_id (channels : List SlackChannel)
    (channel_id : String) (api : ApiState) : Option String × ApiState :=
  ((channels.find? (fun entry => entry.id == channel_id)).map
      (fun entry => entry.name),
    api)

/-! ## Text codec (`SlackBot.text_to_sendable_text` /
`SlackBot.sendable_text_to_text`, src/bot.py) -/

/-- Python `str.replace(p, r)` over character lists: replace every
non-overlapping occurrence of `p`, scanning left to right. (Only ever
used with nonempty `p`.) -/
def replaceList (p r : List Char) : List Char → List Char
  | [] => []
  | c :: rest =>
    if p.isPrefixOf (c :: rest) then
      r ++ replaceList p r (rest.drop (p.length - 1))
    else
      c :: replaceList p r rest
termination_by l => l.length
decreasing_by
  · simp only [List.length_cons, List.length_drop]
    omega
  · simp only [List.length_cons]
    omega

/-- `SlackBot.text_to_sendable_text` (plain → wire): escape the three
reserved characters, `&` first so that the later escapes are not
re-escaped. -/
def text_to_sendable_text (text : String) : String :=
  (replaceList ['>'] ['&', 'g', 't', ';']
    (replaceList ['<'] ['&', 'l', 't', ';']
      (replaceList ['&'] ['&', 'a', 'm', 'p', ';'] text.toList))).asString

/-- The candidate match of `[^<>]*>` after a `'<'`, for
`re.sub(r"<[^<>]*>", "", s)`: skip characters that are not brackets until
a `'>'`; fail on a `'<'` or the end of input. Returns how many characters
the match consumes (closing bracket included). -/
def matchBracketRun : List Char → Option Nat
  | [] => none
  | c :: rest =>
    if c = '>' then some 1
    else if c = '<' then none
    else (matchBracketRun rest).map (· + 1)

/-- `re.sub(r"<[^<>]*>", "", s)` — the sanity-check substitution at the
top of `sendable_text_to_text`: remove every bracket pair containing no
nested bracket; a `'<'` at which no such pair starts is kept and the scan
continues after it. -/
def removeBracketPairs : List Char → List Char
  | [] => []
  | c :: rest =>
    if c = '<' then
      match matchBracketRun rest with
      | some n => removeBracketPairs (rest.drop n)
      | none => c :: removeBracketPairs rest
    else c :: removeBracketPairs rest
termination_by l => l.length
decreasing_by
  · simp only [List.length_cons, List.length_drop]; omega
  · simp only [List.length_cons]; omega
  · simp only [List.length_cons]; omega

/-- The candidate match of `(.*?)>` after a `'<'`, for
`re.sub(r"<(.*?)>", f, s)`: the shortest run of non-newline characters up
to a `'>'` (the regex `.` does not cross a newline). Returns the body and
how many characters the match consumes (terminator included), or `none`
when no such terminator exists. -/
def matchAngleBody : List Char → Option (List Char × Nat)
  | [] => none
  | c :: rest =>
    if c = '>' then some ([], 1)
    else if c = '\n' then none
    else
      match matchAngleBody rest with
      | some (body, n) => some (c :: body, n + 1)
      | none => none

/-- `re.sub(r"<(.*?)>", f, s)`: at each unconsumed `'<'` where a body
terminated by `'>'` exists, replace the whole `<body>` sequence by
`f body` and continue after it; every other character is copied. -/
def subSpecialSequences (f : List Char → List Char) : List Char → List Char
  | [] => []
  | c :: rest =>
    if c = '<' then
      match matchAngleBody rest with
      | some (body, n) => f body ++ subSpecialSequences f (rest.drop n)
      | none => c :: subSpecialSequences f rest
    else c :: subSpecialSequences f rest
termination_by l => l.length
decreasing_by
  · simp only [List.length_cons, List.length_drop]; omega
  · simp only [List.length_cons]; omega
  · simp only [List.length_cons]; omega

/-- Python `body.split("|")[0]`: the part before the first `'|'`. -/
def splitBarFirst (body : List Char) : List Char :=
  body.takeWhile (fun c => c ≠ '|')

/-- The `process_special_sequence` closure inside
`SlackBot.sendable_text_to_text`, parameterized by the
`get_channel_name_by_id` / `get_user_name_by_id` lookups it performs:
resolve channel and user references through the directory (keeping the
original sequence when unresolvable), translate the three special
commands, and keep any other sequence unchanged. -/
def process_special_sequence (channelName userName : String → Option String)
    (body : List Char) : List Char :=
  let original := '<' :: (body ++ ['>'])
  let b := splitBarFirst body
  match b with
  | '#' :: channelId =>
    match channelName channelId.asString with
    | none => original
    | some name => '#' :: name.toList
  | '@' :: userId =>
    match userName userId.asString with
    | none => original
    | some name => '@' :: name.toList
  | '!' :: _ =>
    if b = "!channel".toList then "@channel".toList
    else if b = "!group".toList then "@group".toList
    else if b = "!everyone".toList then "@everyone".toList
    else original
  | _ => original

/-- Python `AssertionError`. -/
inductive AssertExc where
  | assertionError
deriving DecidableEq, Repr

/-- `SlackBot.sendable_text_to_text` (wire → plain), with the directory
lookups passed in: assert that no angle bracket occurs outside a special
sequence, resolve the special sequences, then unescape the three
reserved-character escapes (`&lt;`, then `&gt;`, then `&amp;`). -/
def sendable_text_to_text (channelName userName : String → Option String)
    (sendable_text : String) : Except AssertExc String :=
  let cs := sendable_text.toList
  let text_without_special_sequences := removeBracketPairs cs
  if text_without_special_sequences.contains '<' ||
      text_without_special_sequences.contains '>' then
    .error .assertionError
  else
    let raw_text :=
      subSpecialSequences (process_special_sequence channelName userName) cs
    .ok (replaceList ['&', 'a', 'm', 'p', ';'] ['&']
      (replaceList ['&', 'g', 't', ';'] ['>']
        (replaceList ['&', 'l', 't', ';'] ['<'] raw_text))).asString

/-! ## Theorems -/

/-- C6: a `NormalizedEvent` accessor over a raw event missing a required
field in all of its candidate locations fails with a `ValueError`
(the code's `ValidationError`) rather than silently returning a default,
while the legitimately optional thread-reference accessor returns `none`
when the field is absent. -/
theorem accessors_fail_fast_on_missing_fields (m : Msg) :
    (m.ts = none → (itemOf m).ts = none →
      IncomingMessage.timestamp ⟨m, false⟩ = .error .valueError)
  ∧ (m.text = none → (subOf m).text = none →
      IncomingMessage.text ⟨m, false⟩ = .error .valueError)
  ∧ (m.user = none → (subOf m).user = none →
      IncomingMessage.user_id ⟨m, false⟩ = .error .valueError)
  ∧ (m.channel = none → (subOf m).channel = none → (itemOf m).channel = none →
      IncomingMessage.channel_id ⟨m, false⟩ = .error .valueError)
  ∧ (m.reaction = none →
      IncomingMessage.reaction ⟨m, false⟩ = .error .valueError)
  ∧ (m.thread_ts = none → (subOf m).thread_ts = none →
      IncomingMessage.thread_id ⟨m, false⟩ = .ok none) := by
  refine ⟨?_, ?_, ?_, ?_, ?_, ?_⟩
  · intro h1 h2
    simp [IncomingMessage.timestamp, h1, h2]
  · intro h1 h2
    simp [IncomingMessage.text, h1, h2]
  · intro h1 h2
    simp [IncomingMessage.user_id, h1, h2]
  · intro h1 h2 h3
    simp [IncomingMessage.channel_id, h1, h2, h3]
  · intro h1
    simp [IncomingMessage.reaction, h1]
  · intro h1 h2
    simp [IncomingMessage.thread_id, h1, h2]

/-- Witness for C6: the fully-empty raw event makes every required-field
accessor fail with `ValueError`, and the thread accessor return `none`. -/
theorem accessors_fail_fast_on_missing_fields_witness :
    IncomingMessage.timestamp ⟨Msg.empty, false⟩ = .error .valueError
  ∧ IncomingMessage.text ⟨Msg.empty, false⟩ = .error .valueError
  ∧ IncomingMessage.user_id ⟨Msg.empty, false⟩ = .error .valueError
  ∧ IncomingMessage.channel_id ⟨Msg.empty, false⟩ = .error .valueError
  ∧ IncomingMessage.reaction ⟨Msg.empty, false⟩ = .error .valueError
  ∧ IncomingMessage.thread_id ⟨Msg.empty, false⟩ = .ok none :=
  have h := accessors_fail_fast_on_missing_fields Msg.empty
  ⟨h.1 rfl rfl, h.2.1 rfl rfl, h.2.2.1 rfl rfl, h.2.2.2.1 rfl rfl rfl,
   h.2.2.2.2.1 rfl, h.2.2.2.2.2 rfl rfl⟩

/-- The invoked-index trace of the dispatch loop is always the consecutive
range starting at the initial index. -/
theorem dispatchFrom_trace_range (message : IncomingMessage) :
    ∀ (plugins : List Handler) (i : Nat),
      (dispatchToPluginsFrom message i plugins).1 =
        List.range' i (dispatchToPluginsFrom message i plugins).1.length := by
  intro plugins
  induction plugins with
  | nil => intro i; simp [dispatchToPluginsFrom]
  | cons p rest ih =>
    intro i
    cases hp : p message with
    | exc => simp [dispatchToPluginsFrom, hp]
    | ret b =>
      cases b with
      | true => simp [dispatchToPluginsFrom, hp]
      | false =>
        simp only [dispatchToPluginsFrom, hp]
        rw [ih (i + 1)]
        simp [List.range'_succ]

/-- When the dispatch loop ends with plugin `j` raising, the plugins
invoked are exactly those at indices `i, i+1, ..., j`. -/
theorem dispatchFrom_raised (message : IncomingMessage) :
    ∀ (plugins : List Handler) (i j : Nat) (tr : List Nat),
      dispatchToPluginsFrom message i plugins = (tr, .raisedAt j) →
      i ≤ j ∧ tr = List.range' i (j + 1 - i) := by
  intro plugins
  induction plugins with
  | nil => intro i j tr h; simp [dispatchToPluginsFrom] at h
  | cons p rest ih =>
    intro i j tr h
    cases hp : p message with
    | exc =>
      simp only [dispatchToPluginsFrom, hp, Prod.mk.injEq, DispatchOutcome.raisedAt.injEq] at h
      obtain ⟨htr, hj⟩ := h
      subst hj
      refine ⟨le_refl i, ?_⟩
      rw [← htr]
      simp [Nat.add_sub_cancel_left]
    | ret b =>
      cases b with
      | true => simp [dispatchToPluginsFrom, hp] at h
      | false =>
        simp only [dispatchToPluginsFrom, hp] at h
        have h1 : i :: (dispatchToPluginsFrom message (i + 1) rest).1 = tr :=
          congrArg Prod.fst h
        have h2 : (dispatchToPluginsFrom message (i + 1) rest).2 = .raisedAt j :=
          congrArg Prod.snd h
        obtain ⟨hij, htr⟩ :=
          ih (i + 1) j (dispatchToPluginsFrom message (i + 1) rest).1 (by rw [← h2])
        refine ⟨by omega, ?_⟩
        have hn : j + 1 - i = (j + 1 - (i + 1)) + 1 := by omega
        rw [← h1, htr, hn, List.range'_succ]

/-- C1: plugin `on_message` callbacks are invoked in registration order
and dispatch stops at the first truthy result: with handlers [A, B, C]
where `A` returns false and `B` returns true on an event, exactly A then B
are invoked and C never is; in general the invoked indices always form an
initial segment `0, 1, ...` of the registration order. -/
theorem first_match_wins (A B C : Handler) (m : IncomingMessage)
    (hA : A m = .ret false) (hB : B m = .ret true) :
    (dispatchToPlugins [A, B, C] m).1 = [0, 1]
  ∧ 2 ∉ (dispatchToPlugins [A, B, C] m).1
  ∧ (dispatchToPlugins [A, B, C] m).2 = .handledBy 1
  ∧ ∀ (plugins : List Handler) (msg : IncomingMessage),
      (dispatchToPlugins plugins msg).1 =
        List.range (dispatchToPlugins plugins msg).1.length := by
  refine ⟨?_, ?_, ?_, ?_⟩
  · simp [dispatchToPlugins, dispatchToPluginsFrom, hA, hB]
  · simp [dispatchToPlugins, dispatchToPluginsFrom, hA, hB]
  · simp [dispatchToPlugins, dispatchToPluginsFrom, hA, hB]
  · intro plugins msg
    rw [List.range_eq_range']
    exact dispatchFrom_trace_range msg plugins 0

/-- Witness for C1 at concrete handlers and a concrete event. -/
theorem first_match_wins_witness :
    (dispatchToPlugins
        [fun _ => .ret false, fun _ => .ret true, fun _ => .ret true]
        ⟨Msg.empty, false⟩).1 = [0, 1] :=
  (first_match_wins (fun _ => .ret false) (fun _ => .ret true)
    (fun _ => .ret true) ⟨Msg.empty, false⟩ rfl rfl).1

/-- If any accessor in the tuple assignment raises, `Botty.on_message`
leaves the whole `Botty` state unchanged. -/
theorem bottyOnMessage_state_of_accessor_error (isBot : String → Bool)
    (plugins : List Handler) (st : BottyState) (m : Msg)
    (h : IncomingMessage.timestamp ⟨m, false⟩ = .error .valueError ∨
         IncomingMessage.thread_id ⟨m, false⟩ = .error .valueError ∨
         IncomingMessage.channel_id ⟨m, false⟩ = .error .valueError) :
    (bottyOnMessage isBot plugins st m).1 = st := by
  simp only [bottyOnMessage]
  split
  · rfl
  · split
    · rcases h with h | h | h <;> simp_all
    · rfl

/-- C10: the dispatcher's three last-seen fields are updated atomically:
if any of the timestamp, thread-ID or channel-ID accessors raises on an
event, `Botty.on_message` leaves all three fields at their previous
values, because the tuple assignment evaluates its whole right-hand side
before assigning. -/
theorem last_seen_fields_updated_atomically (isBot : String → Bool)
    (plugins : List Handler) (st : BottyState) (m : Msg)
    (h : IncomingMessage.timestamp ⟨m, false⟩ = .error .valueError ∨
         IncomingMessage.thread_id ⟨m, false⟩ = .error .valueError ∨
         IncomingMessage.channel_id ⟨m, false⟩ = .error .valueError) :
    (bottyOnMessage isBot plugins st m).1.last_message_timestamp
        = st.last_message_timestamp
  ∧ (bottyOnMessage isBot plugins st m).1.last_message_thread_id
        = st.last_message_thread_id
  ∧ (bottyOnMessage isBot plugins st m).1.last_message_channel_id
        = st.last_message_channel_id := by
  rw [bottyOnMessage_state_of_accessor_error isBot plugins st m h]
  exact ⟨rfl, rfl, rfl⟩

/-- Witness for C10: an event with no timestamp anywhere leaves the three
previously stored last-seen values intact. -/
theorem last_seen_fields_updated_atomically_witness :
    (bottyOnMessage (fun _ => false) [] ⟨some "1", some "2", some "C", []⟩
        Msg.empty).1.last_message_timestamp = some "1"
  ∧ (bottyOnMessage (fun _ => false) [] ⟨some "1", some "2", some "C", []⟩
        Msg.empty).1.last_message_thread_id = some "2"
  ∧ (bottyOnMessage (fun _ => false) [] ⟨some "1", some "2", some "C", []⟩
        Msg.empty).1.last_message_channel_id = some "C" :=
  last_seen_fields_updated_atomically (fun _ => false) []
    ⟨some "1", some "2", some "C", []⟩ Msg.empty (Or.inl rfl)

/-- When `Botty.on_message` escapes with an exception from plugin `i`, the
plugins invoked for that event are exactly those at indices `0, ..., i`. -/
theorem bottyOnMessage_invoked_of_handlerExc (isBot : String → Bool)
    (plugins : List Handler) (st : BottyState) (m : Msg) (i : Nat)
    (tr : List Nat)
    (h : (bottyOnMessage isBot plugins st m).2 = (tr, some (.handlerExc i))) :
    tr = List.range (i + 1) := by
  simp only [bottyOnMessage] at h
  split at h
  · simp at h
  · split at h
    · split at h
      · rename_i tr' j heq
        simp only [Prod.mk.injEq, Option.some.injEq, BotExc.handlerExc.injEq] at h
        obtain ⟨htr', hj⟩ := h
        have hpair : dispatchToPluginsFrom _ 0 plugins =
            (tr', DispatchOutcome.raisedAt j) := heq
        obtain ⟨-, htr2⟩ := dispatchFrom_raised _ plugins 0 j tr' hpair
        rw [← htr', htr2, hj]
        simp [List.range_eq_range']
      · simp at h
    · simp at h

/-- C2 (amended): an exception thrown by a plugin during `on_message` is
caught and logged once at the per-event boundary in `SlackBot.start`, so
it neither prevents subsequent events from being dispatched nor produces
more than one error-log record per throwing event — but it does abort
dispatch of the current event: the plugins invoked for that event are
exactly those up to and including the thrower, so later-registered plugins
are skipped for it. -/
theorem handler_exception_isolated_per_event (isBot : String → Bool)
    (plugins : List Handler) (st : BottyState) (events : List Msg) :
    ((processIncomingEvents isBot plugins st events).2.length = events.length)
  ∧ (∀ r ∈ (processIncomingEvents isBot plugins st events).2,
       r.errorLogs = if r.exc.isSome then 1 else 0)
  ∧ (∀ r ∈ (processIncomingEvents isBot plugins st events).2, ∀ i,
       r.exc = some (.handlerExc i) → r.invoked = List.range (i + 1)) := by
  induction events generalizing st with
  | nil => simp [processIncomingEvents]
  | cons m rest ih =>
    simp only [processIncomingEvents, List.length_cons, List.mem_cons]
    refine ⟨?_, ?_, ?_⟩
    · simpa using (ih (bottyOnMessage isBot plugins st m).1).1
    · rintro r (rfl | hr)
      · cases hexc : (bottyOnMessage isBot plugins st m).2.2 <;> simp [hexc]
      · exact (ih _).2.1 r hr
    · rintro r (rfl | hr) i hi
      · exact bottyOnMessage_invoked_of_handlerExc isBot plugins st m i _
          (by rw [← hi])
      · exact (ih _).2.2 r hr i hi

/-- Witness for C2 (amended): a concrete run over two events with a
throwing plugin registered before a catch-all — both events are
dispatched, and the record of an event on which plugin 0 threw shows
exactly the plugins 0..0 invoked. -/
theorem handler_exception_isolated_per_event_witness :
    ((processIncomingEvents (fun _ => false)
        [fun _ => .exc, fun _ => .ret true] ⟨none, none, none, []⟩
        [sampleDispatchableMsg, sampleDispatchableMsg]).2.length = 2)
  ∧ (⟨[0], some (.handlerExc 0), 1⟩ : EventRecord).invoked = List.range (0 + 1) :=
  have h := handler_exception_isolated_per_event (fun _ => false)
    [fun _ => .exc, fun _ => .ret true] ⟨none, none, none, []⟩
    [sampleDispatchableMsg, sampleDispatchableMsg]
  ⟨h.1, h.2.2 ⟨[0], some (.handlerExc 0), 1⟩ (by decide) 0 rfl⟩

/-- A `say` call completes exactly at the value it stores into
`last_say_time`. -/
theorem say_completion_eq_last (st : SendState) (t : ℚ) :
    (say st t).2.2 = (say st t).2.1.last_say_time := by
  unfold say
  dsimp only
  split
  · rename_i h
    dsimp only
    rw [max_eq_right (by linarith)]
    ring
  · rfl

/-- Each `say` call advances `last_say_time` by at least the minimum
inter-send interval of 1 second. -/
theorem say_last_ge (st : SendState) (t : ℚ) :
    st.last_say_time + 1 ≤ (say st t).2.1.last_say_time := by
  unfold say
  dsimp only
  split
  · exact le_refl _
  · rename_i h
    dsimp only
    linarith [not_lt.mp h]

/-- A `say` call never completes before it starts. -/
theorem say_completion_ge_start (st : SendState) (t : ℚ) :
    t ≤ (say st t).2.2 := by
  unfold say
  dsimp only
  split
  · dsimp only
    have : (0 : ℚ) ≤ max 0 (1 - (t - st.last_say_time)) := le_max_left 0 _
    linarith
  · exact le_refl _

/-- Across a back-to-back chain, `last_say_time` grows by at least 1 per
call. -/
theorem sayChain_last_ge (n : Nat) :
    ∀ (st : SendState) (t : ℚ),
      st.last_say_time + n ≤ (sayChain st t n).1.last_say_time := by
  induction n with
  | zero => intro st t; simp [sayChain]
  | succ n ih =>
    intro st t
    have h1 := say_last_ge st t
    have h2 := ih (say st t).2.1 (say st t).2.2
    simp only [sayChain]
    push_cast
    linarith

/-- If the chain starts with `last_say_time` equal to the start instant,
its final completion instant equals the final `last_say_time`. -/
theorem sayChain_completion_eq_last (n : Nat) :
    ∀ (st : SendState) (t : ℚ), st.last_say_time = t →
      (sayChain st t n).2 = (sayChain st t n).1.last_say_time := by
  induction n with
  | zero => intro st t h; simpa [sayChain] using h.symm
  | succ n ih =>
    intro st t h
    simp only [sayChain]
    exact ih (say st t).2.1 (say st t).2.2 (say_completion_eq_last st t).symm

/-- Unfolding a chain of `n + 1` calls from the far end: it is a chain of
`n` calls followed by one more `say`. -/
theorem sayChain_succ_eq (n : Nat) :
    ∀ (st : SendState) (t : ℚ),
      sayChain st t (n + 1) =
        ((say (sayChain st t n).1 (sayChain st t n).2).2.1,
         (say (sayChain st t n).1 (sayChain st t n).2).2.2) := by
  induction n with
  | zero => intro st t; rfl
  | succ n ih =>
    intro st t
    show sayChain (say st t).2.1 (say st t).2.2 (n + 1) = _
    rw [ih (say st t).2.1 (say st t).2.2]
    rfl

/-- C3: for `n` back-to-back `say` calls on one `SlackBot` instance, the
wall-clock span from the first call's start to the last call's completion
is at least `(n - 1) × 1` second, and consecutive completions are at
least the 1-second minimum interval apart (the burst is spread evenly);
a caller inside the interval is delayed by a sleep, never rejected. -/
theorem say_rate_limited (st : SendState) (t : ℚ) (n : Nat) (h : 1 ≤ n) :
    (n : ℚ) - 1 ≤ (sayChain st t n).2 - t
  ∧ ∀ m : Nat, 1 ≤ m →
      (sayChain st t m).2 + 1 ≤ (sayChain st t (m + 1)).2 := by
  have hinv : (say st t).2.1.last_say_time = (say st t).2.2 :=
    (say_completion_eq_last st t).symm
  constructor
  · obtain ⟨k, rfl⟩ := Nat.exists_eq_add_of_le h
    rw [Nat.add_comm 1 k]
    simp only [sayChain]
    rw [sayChain_completion_eq_last k (say st t).2.1 (say st t).2.2 hinv]
    have h1 := sayChain_last_ge k (say st t).2.1 (say st t).2.2
    have h2 := say_completion_ge_start st t
    push_cast
    push_cast at h1
    linarith
  · intro m hm
    obtain ⟨k, rfl⟩ := Nat.exists_eq_add_of_le hm
    rw [Nat.add_comm 1 k]
    have hfin : (sayChain st t (k + 1)).2 = (sayChain st t (k + 1)).1.last_say_time := by
      simp only [sayChain]
      exact sayChain_completion_eq_last k (say st t).2.1 (say st t).2.2 hinv
    rw [sayChain_succ_eq (k + 1) st t]
    dsimp only
    rw [say_completion_eq_last (sayChain st t (k + 1)).1 (sayChain st t (k + 1)).2]
    have h1 := say_last_ge (sayChain st t (k + 1)).1 (sayChain st t (k + 1)).2
    rw [← hfin] at h1
    exact h1

/-- Witness for C3: three back-to-back calls from the fresh state,
starting at instant 5, span at least 2 seconds. -/
theorem say_rate_limited_witness :
    ((3 : Nat) : ℚ) - 1 ≤ (sayChain initSendState 5 3).2 - 5 :=
  (say_rate_limited initSendState 5 3 (by norm_num)).1

/-- The IDs handed out are consecutive starting from `max_message_id`. -/
theorem sayIdsAt_eq_range' :
    ∀ (ts : List ℚ) (st : SendState),
      sayIdsAt st ts = List.range' st.max_message_id ts.length := by
  intro ts
  induction ts with
  | nil => intro st; simp [sayIdsAt]
  | cons t ts ih =>
    intro st
    simp only [sayIdsAt, say, List.length_cons]
    rw [ih ⟨st.max_message_id + 1, _⟩]
    rw [List.range'_succ]

/-- C4: the message (correlation) IDs returned by any sequence of `say`
calls on one `SlackBot` instance are strictly increasing, and in
particular never repeat within that instance. -/
theorem message_ids_strictly_increasing (st : SendState) (ts : List ℚ) :
    List.Pairwise (· < ·) (sayIdsAt st ts) ∧ (sayIdsAt st ts).Nodup := by
  rw [sayIdsAt_eq_range' ts st]
  constructor
  · rw [List.range'_eq_map_range]
    rw [List.pairwise_map]
    exact (List.pairwise_lt_range _).imp (by omega)
  · exact List.nodup_range' ..

/-- A batch with no acknowledgment for the ID scans to `none`. -/
theorem scanBatch_none (message_id : Nat) :
    ∀ l : List Msg, (∀ e ∈ l, isReplyTo message_id e = false) →
      scanBatch message_id l = none := by
  intro l
  induction l with
  | nil => intro _; rfl
  | cons e rest ih =>
    intro h
    simp only [scanBatch, h e (List.mem_cons_self e rest)]
    exact ih fun x hx => h x (List.mem_cons_of_mem e hx)

/-- Scanning skips every non-matching event before the first
acknowledgment for the ID, which then decides the result. -/
theorem scanBatch_found (message_id : Nat) (e : Msg) (post : List Msg)
    (he : isReplyTo message_id e = true) :
    ∀ pre : List Msg, (∀ x ∈ pre, isReplyTo message_id x = false) →
      scanBatch message_id (pre ++ e :: post) =
        some (match e.ok with
          | some false => .error .deliveryExc
          | _ =>
            match e.ts with
            | some (.pstr s) => .ok s
            | _ => .error .assertionExc) := by
  intro pre
  induction pre with
  | nil =>
    intro _
    simp [scanBatch, he]
  | cons x rest ih =>
    intro h
    simp only [List.cons_append, scanBatch, h x (List.mem_cons_self x rest)]
    exact ih fun y hy => h y (List.mem_cons_of_mem x hy)

/-- C5: `say_complete` scans all newly pulled events for an acknowledgment
whose reply-to equals the correlation ID of the send: if no batch within
the timeout budget contains one (in particular, acknowledgments with a
non-matching reply-to are ignored rather than treated as errors), it
fails with `TimeoutError`; the first matching acknowledgment, after any
number of ignored non-matching events, yields the acknowledged timestamp
when positive and `ValueError` (the delivery error) when negative. -/
theorem say_complete_ack_matching (message_id : Nat) :
    (∀ batches : List (List Msg),
       (∀ b ∈ batches, ∀ e ∈ b, isReplyTo message_id e = false) →
       sayCompleteLoop message_id batches = .error .timeoutExc)
  ∧ (∀ (pre post : List Msg) (e : Msg) (rest : List (List Msg)) (s : String),
       (∀ x ∈ pre, isReplyTo message_id x = false) →
       isReplyTo message_id e = true →
       e.ok = some true → e.ts = some (.pstr s) →
       sayCompleteLoop message_id ((pre ++ e :: post) :: rest) = .ok s)
  ∧ (∀ (pre post : List Msg) (e : Msg) (rest : List (List Msg)),
       (∀ x ∈ pre, isReplyTo message_id x = false) →
       isReplyTo message_id e = true → e.ok = some false →
       sayCompleteLoop message_id ((pre ++ e :: post) :: rest) =
         .error .deliveryExc) := by
  refine ⟨?_, ?_, ?_⟩
  · intro batches h
    induction batches with
    | nil => rfl
    | cons b rest ih =>
      simp only [sayCompleteLoop,
        scanBatch_none message_id b (h b (List.mem_cons_self b rest))]
      exact ih fun x hx => h x (List.mem_cons_of_mem b hx)
  · intro pre post e rest s hpre he hok hts
    simp only [sayCompleteLoop, scanBatch_found message_id e post he pre hpre,
      hok, hts]
  · intro pre post e rest hpre he hok
    simp only [sayCompleteLoop, scanBatch_found message_id e post he pre hpre,
      hok]

/-- Witness for C5 at concrete events: an acknowledgment for a different
correlation ID (6) is ignored — alone it leads to `TimeoutError` for ID 7,
and a positive acknowledgment for 7 behind it still yields its timestamp. -/
theorem say_complete_ack_matching_witness :
    sayCompleteLoop 7
        [[{ Msg.empty with ok := some true, reply_to := some 6 }]]
      = .error .timeoutExc
  ∧ sayCompleteLoop 7
        [[{ Msg.empty with ok := some true, reply_to := some 6 },
          { Msg.empty with
              ok := some true
              reply_to := some 7
              ts := some (.pstr "123.45") }]]
      = .ok "123.45" :=
  ⟨(say_complete_ack_matching 7).1
      [[{ Msg.empty with ok := some true, reply_to := some 6 }]] (by decide),
   (say_complete_ack_matching 7).2.1
      [{ Msg.empty with ok := some true, reply_to := some 6 }] []
      { Msg.empty with
          ok := some true
          reply_to := some 7
          ts := some (.pstr "123.45") }
      [] "123.45" (by decide) (by decide) rfl rfl⟩

/-- C7 (amended): a failed connection attempt raises a recoverable
`ConnectionError`, and an authentication failure raises `AssertionError`;
the supervision loop retries after a fixed 5-second backoff on every
exception other than `KeyboardInterrupt` — the authentication failure
included — and terminates only on `KeyboardInterrupt`. -/
theorem supervision_loop_retries_all_failures :
    (∀ b : Bool, startOutcome false b = .raised .connectionExc)
  ∧ startOutcome true false = .raised .authAssertionExc
  ∧ (∀ es : List LoopExc,
      (startLoop es).1 =
          5 * (es.takeWhile (fun e => decide (e ≠ .keyboardInterrupt))).length
      ∧ ((startLoop es).2 = true ↔ .keyboardInterrupt ∈ es)) := by
  refine ⟨fun b => rfl, rfl, ?_⟩
  intro es
  induction es with
  | nil => simp [startLoop]
  | cons e rest ih =>
    cases e <;>
      simp [startLoop, List.takeWhile_cons, ih.1, ih.2] <;>
      omega

/-- Counterexample to C7 as stated: authentication failure is not a
fatal, never-retried error. It raises `AssertionError`, and with one
authentication failure scripted before an interrupt the supervision loop
performs a 5-second backoff and restarts (terminating only at the
interrupt) instead of terminating at the authentication failure with no
backoff. -/
theorem auth_failure_is_retried :
    startOutcome true false = .raised .authAssertionExc
  ∧ startLoop [.authAssertionExc, .keyboardInterrupt] = (5, true)
  ∧ startLoop [.authAssertionExc, .keyboardInterrupt] ≠ (0, true) := by
  refine ⟨rfl, rfl, ?_⟩
  decide

/-- C9 (amended): the ID-to-name lookups only scan the in-memory
directory populated by the session: no call — cold or warm — issues a
directory query, there is no cache retry, and a missing ID yields `None`
immediately (`None` means "not found", not an error). -/
theorem name_lookup_reads_only_cache (users : List SlackUser)
    (channels : List SlackChannel) (user_id channel_id : String)
    (api : ApiState) :
    ((get_user_name_by_id users user_id api).2 = api)
  ∧ ((get_user_name_by_id users user_id api).1 = none ↔
      ∀ u ∈ users, u.id ≠ user_id)
  ∧ ((get_channel_name_by_id channels channel_id api).2 = api)
  ∧ ((get_channel_name_by_id channels channel_id api).1 = none ↔
      ∀ c ∈ channels, c.id ≠ channel_id) := by
  refine ⟨rfl, ?_, rfl, ?_⟩
  · simp [get_user_name_by_id, List.find?_eq_none]
  · simp [get_channel_name_by_id, List.find?_eq_none]

/-- Witness for C9 (amended) at concrete inputs. -/
theorem name_lookup_reads_only_cache_witness :
    (get_user_name_by_id [] "U9" ⟨3⟩).2 = ⟨3⟩
  ∧ (get_user_name_by_id [] "U9" ⟨3⟩).1 = none :=
  have h := name_lookup_reads_only_cache [] [] "U9" "C9" ⟨3⟩
  ⟨h.1, h.2.1.mpr (by simp)⟩

/-- Counterexample to C9 as stated: a cold lookup of an ID that is not in
the directory issues zero directory queries — not exactly one — performs
no cache retry, and returns `None`. -/
theorem cold_lookup_issues_no_query :
    get_user_name_by_id [] "U1" ⟨0⟩ = (none, ⟨0⟩)
  ∧ (get_user_name_by_id [] "U1" ⟨0⟩).2.queryCount ≠ 1 := by
  refine ⟨rfl, ?_⟩
  decide

/-- `str.replace` is the identity when the pattern's first character does
not occur in the string. -/
theorem replaceList_of_head_not_mem (a : Char) (ps r : List Char) :
    ∀ l : List Char, a ∉ l → replaceList (a :: ps) r l = l := by
  intro l
  induction l with
  | nil => intro _; simp [replaceList]
  | cons c cs ih =>
    intro h
    simp only [List.mem_cons, not_or] at h
    rw [replaceList, if_neg, ih h.2]
    simp [List.isPrefixOf, h.1]

/-- `removeBracketPairs` is the identity on a string with no `'<'`. -/
theorem removeBracketPairs_of_no_lt :
    ∀ l : List Char, '<' ∉ l → removeBracketPairs l = l := by
  intro l
  induction l with
  | nil => intro _; simp [removeBracketPairs]
  | cons c cs ih =>
    intro h
    simp only [List.mem_cons, not_or] at h
    rw [removeBracketPairs, if_neg (fun hc => h.1 hc.symm), ih h.2]

/-- `subSpecialSequences` is the identity on a string with no `'<'`. -/
theorem subSpecialSequences_of_no_lt (f : List Char → List Char) :
    ∀ l : List Char, '<' ∉ l → subSpecialSequences f l = l := by
  intro l
  induction l with
  | nil => intro _; simp [subSpecialSequences]
  | cons c cs ih =>
    intro h
    simp only [List.mem_cons, not_or] at h
    rw [subSpecialSequences, if_neg (fun hc => h.1 hc.symm), ih h.2]

/-- C8: for every string with no reserved characters (`&`, `<`, `>`) —
and hence no inline references — converting plain text to wire format
and back is the identity, whatever the directory holds; the reverse
round-trip is not guaranteed: the wire string `"<!channel>"` renders to
plain `"@channel"`, which re-encodes to `"@channel"`, not the original. -/
theorem wire_round_trip (channelName userName : String → Option String)
    (x : String) (hx : ∀ c ∈ x.toList, c ≠ '&' ∧ c ≠ '<' ∧ c ≠ '>') :
    sendable_text_to_text channelName userName (text_to_sendable_text x)
      = .ok x
  ∧ ¬ (∀ (y p : String),
        sendable_text_to_text (fun _ => none) (fun _ => none) y = .ok p →
        text_to_sendable_text p = y) := by
  have hamp : '&' ∉ x.toList := fun h => ((hx _ h).1 rfl).elim
  have hlt : '<' ∉ x.toList := fun h => ((hx _ h).2.1 rfl).elim
  have hgt : '>' ∉ x.toList := fun h => ((hx _ h).2.2 rfl).elim
  have hesc : text_to_sendable_text x = x := by
    unfold text_to_sendable_text
    rw [replaceList_of_head_not_mem '&' _ _ _ hamp,
      replaceList_of_head_not_mem '<' _ _ _ hlt,
      replaceList_of_head_not_mem '>' _ _ _ hgt]
    rfl
  constructor
  · rw [hesc]
    simp only [sendable_text_to_text]
    rw [removeBracketPairs_of_no_lt x.toList hlt]
    have h1 : x.toList.contains '<' = false := by
      simp [show ('<' : Char) ∉ x.data from hlt]
    have h2 : x.toList.contains '>' = false := by
      simp [show ('>' : Char) ∉ x.data from hgt]
    rw [h1, h2]
    simp only [Bool.or_false, Bool.false_or, if_false]
    rw [subSpecialSequences_of_no_lt _ x.toList hlt]
    rw [replaceList_of_head_not_mem '&' _ _ _ hamp,
      replaceList_of_head_not_mem '&' _ _ _ hamp,
      replaceList_of_head_not_mem '&' _ _ _ hamp]
    rfl
  · intro hall
    have h1 := hall "<!channel>" "@channel" (by
      simp [sendable_text_to_text, removeBracketPairs, matchBracketRun,
        subSpecialSequences, matchAngleBody, process_special_sequence,
        splitBarFirst, replaceList]
      rfl)
    have h2 : text_to_sendable_text "@channel" = "@channel" := by
      simp [text_to_sendable_text, replaceList]
      rfl
    rw [h2] at h1
    exact absurd h1 (by decide)

/-- Witness for C8 at a concrete reserved-character-free string. -/
theorem wire_round_trip_witness :
    sendable_text_to_text (fun _ => none) (fun _ => none)
      (text_to_sendable_text "hello world") = .ok "hello world" :=
  (wire_round_trip (fun _ => none) (fun _ => none) "hello world"
    (by decide)).1

/-- Counterexample to C2 as stated: with plugins [thrower, responder] and
one dispatchable event, the throwing plugin at index 0 prevents the
later-registered plugin at index 1 from being invoked for that same event:
the invocation trace for the event is `[0]`, with one error logged. -/

theorem throwing_handler_blocks_remaining_handlers :
    (processIncomingEvents (fun _ => false)
        [fun _ => .exc, fun _ => .ret true]
        ⟨none, none, none, []⟩
        [sampleDispatchableMsg]).2
      = [⟨[0], some (.handlerExc 0), 1⟩] := by
  rfl

end BottyBot
